import Mathlib

/-!
Verification of the MOPIc backend test-session orchestration and scoring
pipeline (`Backend/test_router.py`, `Backend/database/repository.py`).

The persistence layer is modelled as in-memory lists of rows; the SQLAlchemy
`session.scalar(select(...).where(...))` queries become `List.find?`, and
`session.add` + `commit` becomes appending a row.  Numeric metrics are
modelled as rationals (the Python floats stay far from any rounding
boundary on the inputs the program produces).  Exceptions raised by the
Python code are modelled with `Except`; a handler returns the (possibly
unchanged) database next to its result so that "nothing was persisted"
is expressible.
-/

set_option autoImplicit false

namespace MOPIc

/-- Decidable equality of handler outcomes. -/
instance exceptDecEq {ε α : Type _} [DecidableEq ε] [DecidableEq α] :
    DecidableEq (Except ε α) := fun x y =>
  match x, y with
  | Except.ok a, Except.ok b =>
    if h : a = b then Decidable.isTrue (by rw [h]) else Decidable.isFalse (by simp [h])
  | Except.error a, Except.error b =>
    if h : a = b then Decidable.isTrue (by rw [h]) else Decidable.isFalse (by simp [h])
  | Except.ok _, Except.error _ => Decidable.isFalse (by simp)
  | Except.error _, Except.ok _ => Decidable.isFalse (by simp)

/-- The per-question metric bundle returned by the remote inference call:
`{wpm, mlr, pause, grammar:{phase_2:{score}}, mpr, coherence}`.  The nested
grammar structure is flattened to the single field the router reads
(`test.grammar["phase_2"]["score"]`). -/
structure InferenceOutput where
  wpm : ℚ
  mlr : ℚ
  pause : ℚ
  grammar_phase_2_score : ℚ
  mpr : ℚ
  coherence : String
  deriving Repr, DecidableEq

/-- A persisted `Test` row (per-question result). -/
structure TestRow where
  user_id : ℕ
  createddate : String
  q_num : ℤ
  path : String
  wpm : ℚ
  mlr : ℚ
  pause : ℚ
  grammar_phase_2_score : ℚ
  mpr : ℚ
  coherence : String
  deriving Repr, DecidableEq

/-- A persisted `Score` row (session-level result). -/
structure ScoreRow where
  user_id : ℕ
  date : String
  score : String
  deriving Repr, DecidableEq

/-- A persisted `Question` row: one question-set per date, three prompts. -/
structure QuestionRow where
  date : String
  q1 : String
  q2 : String
  q3 : String
  deriving Repr, DecidableEq

/-- The authenticated `User` row, with the two session-completion fields. -/
structure UserRow where
  id : ℕ
  streak : ℕ
  donetoday : Bool
  deriving Repr, DecidableEq

/-- The mutable database state reached through the SQLAlchemy session:
the `Test` and `Score` tables. -/
structure DB where
  tests : List TestRow
  scores : List ScoreRow
  deriving Repr, DecidableEq

/-- Modelled from the spec (the ORM module `database/orm.py` is not in the
sources): `User.addstreak` increments the streak counter. -/
def UserRow.addstreak (u : UserRow) : UserRow :=
  { u with streak := u.streak + 1 }

/-- Modelled from the spec (the ORM module `database/orm.py` is not in the
sources): `User.done` sets the "done today" flag. -/
def UserRow.done (u : UserRow) : UserRow :=
  { u with donetoday := true }

/-- Embeds `repository.create_update_user`: `session.add` + `commit` + `refresh`
on a user row; the row itself is returned unchanged. -/
def create_update_user (user : UserRow) : UserRow :=
  user

/-- Embeds `repository.create_test`: `session.add(test)` + `commit` + `refresh`.
Appends the row; there is no uniqueness check. -/
def create_test (db : DB) (test : TestRow) : DB :=
  { db with tests := db.tests ++ [test] }

/-- Embeds `repository.create_score`: `session.add(score)` + `commit` + `refresh`.
Appends the row; there is no uniqueness check. -/
def create_score (db : DB) (score : ScoreRow) : DB :=
  { db with scores := db.scores ++ [score] }

/-- Embeds `repository.get_questions_by_date`:
`session.scalar(select(Question).where(Question.date == date))`. -/
def get_questions_by_date (questions : List QuestionRow) (date : String) :
    Option QuestionRow :=
  questions.find? fun q => q.date == date

/-- The `where` clause of `repository.get_result_by_q_num`:
`Test.createddate == date, Test.user_id == user.id, Test.q_num == q_num`. -/
def test_key (date : String) (user_id : ℕ) (q_num : ℤ) (t : TestRow) : Bool :=
  t.createddate == date && t.user_id == user_id && t.q_num == q_num

/-- Embeds `repository.get_result_by_q_num`: first `Test` row matching
(date, user, q_num), or `None`. -/
def get_result_by_q_num (db : DB) (date : String) (user_id : ℕ) (q_num : ℤ) :
    Option TestRow :=
  db.tests.find? (test_key date user_id q_num)

/-- Embeds `repository.get_result`: first `Score` row for (date, user), or `None`. -/
def get_result (db : DB) (date : String) (user_id : ℕ) : Option ScoreRow :=
  db.scores.find? fun s => s.date == date && s.user_id == user_id

/-- HTTP-level failure carried by `HTTPException(status_code, detail)`. -/
abbrev HttpError := ℕ × String

/-- Embeds `GET /test` (`get_question_handler`): return the question for today, or raise
`HTTPException(404, "Question Not Found")`. -/
def get_question_handler (questions : List QuestionRow) (today : String) :
    Except HttpError QuestionRow :=
  match get_questions_by_date questions today with
  | some q => Except.ok q
  | none => Except.error (404, "Question Not Found")

/-! ## The submission handler `POST /test` (`upload_test`) -/

/-- A Python runtime value, as far as the router compares them: the
completion guard of the submission handler compares a `str` with an `int`
literal, and the Python `==` across these types is `False`. -/
inductive PyVal where
  | pyStr : String → PyVal
  | pyInt : ℤ → PyVal
  deriving Repr, DecidableEq

/-- Python `==` on `str` / `int` values: equal only within one type. -/
def pyEq : PyVal → PyVal → Bool
  | PyVal.pyStr a, PyVal.pyStr b => a == b
  | PyVal.pyInt a, PyVal.pyInt b => a == b
  | _, _ => false

/-- Python `str.split` with a one-character separator, on the character
list: always returns at least one (possibly empty) chunk. -/
def splitOnChar (sep : Char) : List Char → List (List Char)
  | [] => [[]]
  | c :: cs =>
    match splitOnChar sep cs with
    | [] => if c = sep then [[], []] else [[c]]
    | h :: t => if c = sep then [] :: h :: t else (c :: h) :: t

/-- Embeds `file.filename.split("_")[-1].split(".")[0][-1]`: the last character of
the text before the first dot of the last `_`-separated chunk.  The Python
`split` never returns an empty list, so `[-1]` and `[0]` on the lists always
succeed; `[-1]` on the remaining string raises `IndexError` when that string
is empty, which `none` models. -/
def extract_q_num (filename : String) : Option Char :=
  (((splitOnChar '.' ((splitOnChar '_' filename.toList).getLastD [])).headD []).getLast?)

/-- Python `int(s)` on the one-character string the router extracts: the
value of the digit, or `ValueError` (`none`) when the character is not a digit. -/
def int_of_digit_char (c : Char) : Option ℤ :=
  if c.isDigit then some ((c.toNat : ℤ) - 48) else none

/-- Embeds `getattr(question_data, f"q{q_num}", "질문을 찾을 수 없음")`. -/
def getattr_q (question_data : QuestionRow) (q_num : String) : String :=
  if q_num = "1" then question_data.q1
  else if q_num = "2" then question_data.q2
  else if q_num = "3" then question_data.q3
  else "질문을 찾을 수 없음"

/-- The exceptions that can escape `upload_test`. -/
inductive UploadError where
  /-- The `HTTPException(404, "Question Not Found")` from `get_question_handler`. -/
  | questionNotFound
  /-- An `IndexError` from `[-1]` on an empty filename segment. -/
  | indexErrorFilename
  /-- any exception escaping `save_and_process_audio` (the re-raise itself is
  broken — `status_csode` is a typo — but an exception propagates either way). -/
  | audioProcessingFailed
  /-- any exception escaping `run_inference` (connection failure, timeout,
  non-JSON response). -/
  | inferenceFailed
  /-- A `ValueError` from `int(q_num)` when the extracted character is not a
  digit. -/
  | valueErrorQNum
  deriving Repr, DecidableEq

/-- Embeds `POST /test` (`upload_test`).  The two external collaborators are passed
in as the outcome this submission observes from them: `transcode` is what
`save_and_process_audio` produces (the resampled file path, or a failure) and
`infer` is what `run_inference` produces (the metric bundle, or a failure).
The handler returns its outcome together with the database and user rows as
they stand afterwards, so an early exception leaves both unchanged. -/
def upload_test (questions : List QuestionRow) (today : String) (db : DB)
    (user : UserRow) (filename : String)
    (transcode : Except String String) (infer : Except String InferenceOutput) :
    Except UploadError TestRow × DB × UserRow :=
  match get_question_handler questions today with
  | Except.error _ => (Except.error UploadError.questionNotFound, db, user)
  | Except.ok question_data =>
    match extract_q_num filename with
    | none => (Except.error UploadError.indexErrorFilename, db, user)
    | some ch =>
      let q_num : String := String.singleton ch
      match transcode with
      | Except.error _ => (Except.error UploadError.audioProcessingFailed, db, user)
      | Except.ok file_path =>
        let _question := getattr_q question_data q_num
        match infer with
        | Except.error _ => (Except.error UploadError.inferenceFailed, db, user)
        | Except.ok output =>
          match int_of_digit_char ch with
          | none => (Except.error UploadError.valueErrorQNum, db, user)
          | some qn =>
            let test : TestRow :=
              { user_id := user.id, createddate := today, q_num := qn,
                path := file_path, wpm := output.wpm, mlr := output.mlr,
                pause := output.pause,
                grammar_phase_2_score := output.grammar_phase_2_score,
                mpr := output.mpr, coherence := output.coherence }
            let db1 := create_test db test
            if pyEq (PyVal.pyStr q_num) (PyVal.pyInt 3) then
              let user1 := create_update_user user.addstreak.done
              (Except.ok test, db1, user1)
            else
              (Except.ok test, db1, user)

/-! ## The scoring pipeline `POST /get_score` (`get_score_handler`) -/

/-- The exceptions that can escape `collect_tests_scores` / `get_score_handler`. -/
inductive PyError where
  /-- An `AttributeError`: `get_result_by_q_num` returned `None` and the code
  read `test.wpm` on it — the failure on an incomplete session. -/
  | attributeErrorNoneType
  /-- An `IndexError`: `[...][0]` on the empty list produced by the class-label
  lookup when no mapping value equals the rounded mean. -/
  | indexErrorClassLookup
  deriving Repr, DecidableEq

/-- One row of the `user_scores` DataFrame built by `collect_tests_scores`,
in its fixed column order `["WPM", "MLR", "Pause", "Grammar", "PR", "Coherence"]`
(`Coherence` still holds the raw token at this point). -/
structure FeatureRow where
  wpm : ℚ
  mlr : ℚ
  pause : ℚ
  grammar : ℚ
  pr : ℚ
  coherence : String
  deriving Repr, DecidableEq

/-- The row `[test.wpm, test.mlr, test.pause, test.grammar["phase_2"]["score"],
test.mpr, test.coherence]` appended for each question. -/
def featureRow (t : TestRow) : FeatureRow :=
  { wpm := t.wpm, mlr := t.mlr, pause := t.pause,
    grammar := t.grammar_phase_2_score, pr := t.mpr, coherence := t.coherence }

/-- One iteration of the loop in `collect_tests_scores`: fetch the row for
`q_num` and read its attributes; reading them on `None` raises
`AttributeError`. -/
def fetch_row (db : DB) (date : String) (user_id : ℕ) (q_num : ℤ) :
    Except PyError FeatureRow :=
  match get_result_by_q_num db date user_id q_num with
  | none => Except.error PyError.attributeErrorNoneType
  | some t => Except.ok (featureRow t)

/-- Embeds `collect_tests_scores`: the loop `for q_num in range(1, 4)` builds the
DataFrame row by row, q_num ascending; the first missing row aborts the
request. -/
def collect_tests_scores (db : DB) (date : String) (user_id : ℕ) :
    Except PyError (List FeatureRow) :=
  match fetch_row db date user_id 1 with
  | Except.error e => Except.error e
  | Except.ok r1 =>
    match fetch_row db date user_id 2 with
    | Except.error e => Except.error e
    | Except.ok r2 =>
      match fetch_row db date user_id 3 with
      | Except.error e => Except.error e
      | Except.ok r3 => Except.ok [r1, r2, r3]

/-- The dict `coherence_mapping = {"낮음": 0, "중간": 1, "높음": 2}` used through
`Series.map`; pandas maps a value absent from the dict to `NaN`, which
`none` models — no exception is raised for an unknown token. -/
def coherence_mapping (token : String) : Option ℕ :=
  if token = "낮음" then some 0
  else if token = "중간" then some 1
  else if token = "높음" then some 2
  else none

/-- A `user_scores` row after `user_scores["Coherence"].map(coherence_mapping)`:
the coherence column now holds an ordinal integer, or `NaN` (`none`) for a
token outside the mapping. -/
structure MappedRow where
  wpm : ℚ
  mlr : ℚ
  pause : ℚ
  grammar : ℚ
  pr : ℚ
  coherence : Option ℕ
  deriving Repr, DecidableEq

/-- The column-wise application of `coherence_mapping` to one row. -/
def map_coherence (r : FeatureRow) : MappedRow :=
  { wpm := r.wpm, mlr := r.mlr, pause := r.pause, grammar := r.grammar,
    pr := r.pr, coherence := coherence_mapping r.coherence }

/-- Python 3 `round` (also the one of `numpy`) on an exact value: round to the
nearest integer, ties to the even integer. -/
def pyRound (x : ℚ) : ℤ :=
  if x - ⌊x⌋ < 1/2 then ⌊x⌋
  else if x - ⌊x⌋ > 1/2 then ⌊x⌋ + 1
  else if ⌊x⌋ % 2 = 0 then ⌊x⌋ else ⌊x⌋ + 1

/-- The dict `class_mapping = {"NH": 0, "IL": 1, "IM": 2, "IH": 3, "AL": 4}` in dict
insertion order. -/
def class_mapping : List (String × ℤ) :=
  [("NH", 0), ("IL", 1), ("IM", 2), ("IH", 3), ("AL", 4)]

/-- Embeds `[key for key, value in class_mapping.items() if value == average_predictions][0]`:
`IndexError` when the comprehension is empty. -/
def predicted_class (average_predictions : ℤ) : Except PyError String :=
  match (class_mapping.filter fun kv => kv.2 == average_predictions).map Prod.fst with
  | [] => Except.error PyError.indexErrorClassLookup
  | k :: _ => Except.ok k

/-- The tail of `get_score_handler` after prediction:
`average_predictions = int(round(predictions.mean()))` followed by the
class-label lookup. -/
def session_label (predictions : List ℤ) : Except PyError String :=
  predicted_class
    (pyRound ((predictions.map fun z => (z : ℚ)).sum / (predictions.length : ℚ)))

/-- Embeds `POST /get_score` (`get_score_handler`).  The CatBoost classifier is an
opaque collaborator producing one class index per DataFrame row, passed in
as `classifier`.  Returns the outcome together with the database as it
stands afterwards. -/
def get_score_handler (classifier : MappedRow → ℤ) (db : DB) (date : String)
    (user_id : ℕ) : Except PyError ScoreRow × DB :=
  match collect_tests_scores db date user_id with
  | Except.error e => (Except.error e, db)
  | Except.ok user_scores =>
    let mapped := user_scores.map map_coherence
    let predictions := mapped.map classifier
    match session_label predictions with
    | Except.error e => (Except.error e, db)
    | Except.ok label =>
      let score : ScoreRow := { user_id := user_id, date := date, score := label }
      (Except.ok score, create_score db score)

/-! ## Definitions following the words of the spec, for comparison -/

/-- Following the words of the spec: rounding to the nearest integer with ties
rounded half away from zero. -/
def spec_round_half_away (x : ℚ) : ℤ :=
  if 0 ≤ x then ⌊x + 1/2⌋ else ⌈x - 1/2⌉

/-- Following the words of the spec: the fixed class-label table
`{0:"NH", 1:"IL", 2:"IM", 3:"IH", 4:"AL"}` as a total function (arbitrary
outside the table). -/
def spec_label (m : ℤ) : String :=
  if m = 0 then "NH" else if m = 1 then "IL" else if m = 2 then "IM"
  else if m = 3 then "IH" else if m = 4 then "AL" else ""

/-! ## Concrete scenario data -/

/-- A sample question row published for 2024-01-01. -/
def q0101 : QuestionRow :=
  { date := "2024-01-01", q1 := "P1", q2 := "P2", q3 := "P3" }

/-- A sample inference output with integral metric values and a known
coherence token. -/
def sampleOut : InferenceOutput :=
  { wpm := 120, mlr := 4, pause := 1, grammar_phase_2_score := 7, mpr := 3,
    coherence := "높음" }

/-- A sample persisted test row for user 1 on 2024-01-01, question `q`. -/
def sampleTest (q : ℤ) : TestRow :=
  { user_id := 1, createddate := "2024-01-01", q_num := q, path := "p",
    wpm := 120, mlr := 4, pause := 1, grammar_phase_2_score := 7, mpr := 3,
    coherence := "높음" }

/-- Shorthand for one submission against `q0101` whose transcoding and
inference both succeed with `sampleOut`. -/
def demo_upload (db : DB) (user : UserRow) (filename : String) :
    Except UploadError TestRow × DB × UserRow :=
  upload_test [q0101] "2024-01-01" db user filename
    (Except.ok "path.wav") (Except.ok sampleOut)

/-! ## Helper lemmas -/

/-- Python `==` between a `str` and an `int` is always `False`. -/
theorem pyEq_str_int (s : String) (n : ℤ) :
    pyEq (PyVal.pyStr s) (PyVal.pyInt n) = false := rfl

/-- When a filter leaves exactly one element, `find?` returns it. -/
theorem find?_of_filter_singleton {α : Type _} {p : α → Bool} {l : List α} {a : α}
    (h : l.filter p = [a]) : l.find? p = some a := by
  induction l with
  | nil => simp at h
  | cons x xs ih =>
    rw [List.filter_cons] at h
    by_cases hx : p x
    · simp only [hx, if_true, List.cons.injEq] at h
      rw [List.find?_cons_of_pos _ hx, h.1]
    · simp only [hx, Bool.false_eq_true, if_false] at h
      rw [List.find?_cons_of_neg _ hx]
      exact ih h


/-- A list containing three pairwise distinct elements has length at least 3. -/
theorem three_distinct_le_length {α : Type _} [DecidableEq α] (l : List α) (a b c : α)
    (ha : a ∈ l) (hb : b ∈ l) (hc : c ∈ l)
    (hab : a ≠ b) (hac : a ≠ c) (hbc : b ≠ c) : 3 ≤ l.length := by
  have hsub : ({a, b, c} : Finset α) ⊆ l.toFinset := by
    intro x hx
    rcases Finset.mem_insert.mp hx with rfl | hx
    · exact List.mem_toFinset.mpr ha
    rcases Finset.mem_insert.mp hx with rfl | hx
    · exact List.mem_toFinset.mpr hb
    · rw [Finset.mem_singleton] at hx
      subst hx
      exact List.mem_toFinset.mpr hc
  have hcard : ({a, b, c} : Finset α).card = 3 := by
    rw [Finset.card_insert_of_not_mem (by simp [hab, hac]),
        Finset.card_insert_of_not_mem (by simp [hbc]), Finset.card_singleton]
  calc 3 = ({a, b, c} : Finset α).card := hcard.symm
    _ ≤ l.toFinset.card := Finset.card_le_card hsub
    _ ≤ l.length := l.toFinset_card_le

/-! ## Claim C9 -/

/-- C9: `GET /test` returns the Question published for today when one
exists, and fails with a 404 error carrying the message
"Question Not Found" when none exists for today. -/
theorem get_question_found_or_404 (questions : List QuestionRow) (today : String) :
    (∀ q, get_questions_by_date questions today = some q →
      get_question_handler questions today = Except.ok q) ∧
    (get_questions_by_date questions today = none →
      get_question_handler questions today = Except.error (404, "Question Not Found")) := by
  constructor
  · intro q hq
    simp [get_question_handler, hq]
  · intro h
    simp [get_question_handler, h]

/-- Witness for C9 at a concrete question list and date, in both branches. -/
theorem get_question_found_or_404_witness :
    get_question_handler [q0101] "2024-01-01" = Except.ok q0101 ∧
    get_question_handler [] "2024-01-01" = Except.error (404, "Question Not Found") :=
  ⟨(get_question_found_or_404 [q0101] "2024-01-01").1 q0101 (by decide),
   (get_question_found_or_404 [] "2024-01-01").2 (by decide)⟩

/-! ## Claim C1 -/

/-- The fresh user of the C1 scenario. -/
def c1_user : UserRow := { id := 1, streak := 0, donetoday := false }

/-- State after the first submission (q_num 1) of the C1 scenario. -/
def c1_s1 : Except UploadError TestRow × DB × UserRow :=
  demo_upload { tests := [], scores := [] } c1_user "rec_1.wav"

/-- State after the second submission (q_num 2) of the C1 scenario. -/
def c1_s2 : Except UploadError TestRow × DB × UserRow :=
  demo_upload c1_s1.2.1 c1_s1.2.2 "rec_2.wav"

/-- State after the third submission (q_num 3) of the C1 scenario. -/
def c1_s3 : Except UploadError TestRow × DB × UserRow :=
  demo_upload c1_s2.2.1 c1_s2.2.2 "rec_3.wav"

/-- C1 counterexample: submitting q_num 1, 2, 3 in order, every submission
succeeding, the third submission makes the persisted count reach 3, yet the
user row is unchanged (streak not incremented, done-flag not set) and no
score exists — the completion side effects were triggered zero times, not
exactly once. -/
theorem upload_completion_counterexample :
    c1_s3.2.1.tests.length = 3 ∧ c1_s3.1.isOk = true ∧
    c1_s3.2.2 = c1_user ∧ c1_s3.2.1.scores = [] := by decide

/-- C1 (amended): the submission handler never triggers the completion side
effects: its completion guard compares the extracted q_num string with the
integer 3 (`if q_num == 3`), which is always false in Python, so for every
database, user and submission the returned user row equals the input user
row and the Score table is untouched; the scoring pipeline runs only through
the separate `/get_score` endpoint. -/
theorem upload_never_triggers_completion (questions : List QuestionRow)
    (today : String) (db : DB) (user : UserRow) (filename : String)
    (transcode : Except String String) (infer : Except String InferenceOutput) :
    (upload_test questions today db user filename transcode infer).2.2 = user ∧
    (upload_test questions today db user filename transcode infer).2.1.scores
      = db.scores := by
  unfold upload_test
  cases hq : get_question_handler questions today with
  | error e => simp
  | ok q =>
    cases he : extract_q_num filename with
    | none => simp
    | some ch =>
      cases transcode with
      | error s => simp
      | ok p =>
        cases infer with
        | error s => simp
        | ok o =>
          cases hd : int_of_digit_char ch with
          | none => simp [hd]
          | some n => simp [hd, pyEq_str_int, create_test]

/-! ## Claim C8 -/

/-- C8: when transcoding or inference fails, the submission aborts with an
error, no TestResult row is persisted, and the user row (streak, done-flag)
is unchanged: persistence and side effects come only after every upstream
step of the submission succeeded. -/
theorem upstream_failure_persists_nothing (questions : List QuestionRow)
    (today : String) (db : DB) (user : UserRow) (filename : String)
    (transcode : Except String String) (infer : Except String InferenceOutput)
    (h : transcode.isOk = false ∨ infer.isOk = false) :
    (upload_test questions today db user filename transcode infer).1.isOk = false ∧
    (upload_test questions today db user filename transcode infer).2.1 = db ∧
    (upload_test questions today db user filename transcode infer).2.2 = user := by
  unfold upload_test
  cases hq : get_question_handler questions today with
  | error e => simp [Except.isOk, Except.toBool]
  | ok q =>
    cases he : extract_q_num filename with
    | none => simp [Except.isOk, Except.toBool]
    | some ch =>
      cases transcode with
      | error s => simp [Except.isOk, Except.toBool]
      | ok p =>
        cases infer with
        | error s => simp [Except.isOk, Except.toBool]
        | ok o =>
          exact absurd h (by simp [Except.isOk, Except.toBool])

/-- Witness for C8: a concrete submission whose transcoding step fails
leaves the concrete database and user untouched. -/
theorem upstream_failure_persists_nothing_witness :
    (upload_test [q0101] "2024-01-01" { tests := [], scores := [] } c1_user
        "rec_1.wav" (Except.error "resample crash") (Except.ok sampleOut)).1.isOk
      = false ∧
    (upload_test [q0101] "2024-01-01" { tests := [], scores := [] } c1_user
        "rec_1.wav" (Except.error "resample crash") (Except.ok sampleOut)).2.1
      = { tests := [], scores := [] } ∧
    (upload_test [q0101] "2024-01-01" { tests := [], scores := [] } c1_user
        "rec_1.wav" (Except.error "resample crash") (Except.ok sampleOut)).2.2
      = c1_user :=
  upstream_failure_persists_nothing [q0101] "2024-01-01"
    { tests := [], scores := [] } c1_user "rec_1.wav"
    (Except.error "resample crash") (Except.ok sampleOut) (Or.inl (by decide))

/-! ## Claim C6 -/

/-- State after re-submitting q_num 1 although a TestResult for
(user 1, 2024-01-01, q_num 1) already exists. -/
def c6_r : Except UploadError TestRow × DB × UserRow :=
  demo_upload { tests := [sampleTest 1], scores := [] } c1_user "rec_1.wav"

/-- C6 counterexample: with a TestResult already persisted for
(user 1, 2024-01-01, q_num 1), submitting q_num 1 again succeeds (no
DuplicateSubmission failure) and a second row for the same key is created. -/
theorem duplicate_submission_counterexample :
    c6_r.1.isOk = true ∧ c6_r.2.1.tests.length = 2 ∧
    (c6_r.2.1.tests.filter (test_key "2024-01-01" 1 1)).length = 2 := by decide

/-- C6 (amended): the submission handler performs no duplicate check at
all: whenever it succeeds it appends its new TestResult row to the Test
table unconditionally, whatever rows (including one with the same
user, date and q_num) already exist. -/
theorem upload_appends_unconditionally (questions : List QuestionRow)
    (today : String) (db : DB) (user : UserRow) (filename : String)
    (transcode : Except String String) (infer : Except String InferenceOutput)
    (t : TestRow)
    (h : (upload_test questions today db user filename transcode infer).1
      = Except.ok t) :
    (upload_test questions today db user filename transcode infer).2.1.tests
      = db.tests ++ [t] := by
  unfold upload_test at h ⊢
  cases hq : get_question_handler questions today with
  | error e => simp [hq] at h
  | ok q =>
    cases he : extract_q_num filename with
    | none => simp [hq, he] at h
    | some ch =>
      cases transcode with
      | error s => simp [hq, he] at h
      | ok p =>
        cases infer with
        | error s => simp [hq, he] at h
        | ok o =>
          cases hd : int_of_digit_char ch with
          | none => simp [hq, he, hd] at h
          | some n =>
            simp only [hq, he, hd, pyEq_str_int, Bool.false_eq_true, if_false,
              Except.ok.injEq] at h
            simp [hq, he, hd, pyEq_str_int, create_test, h]

/-- The row created by the C6 witness re-submission. -/
def c6_newRow : TestRow :=
  { user_id := 1, createddate := "2024-01-01", q_num := 1, path := "path.wav",
    wpm := 120, mlr := 4, pause := 1, grammar_phase_2_score := 7, mpr := 3,
    coherence := "높음" }

/-- Witness for C6 at the concrete duplicate re-submission. -/
theorem upload_appends_unconditionally_witness :
    c6_r.2.1.tests = [sampleTest 1] ++ [c6_newRow] :=
  upload_appends_unconditionally [q0101] "2024-01-01"
    { tests := [sampleTest 1], scores := [] } c1_user "rec_1.wav"
    (Except.ok "path.wav") (Except.ok sampleOut) c6_newRow (by decide)

/-! ## Claim C7 -/

/-- A Score row already persisted for (user 1, 2024-01-01). -/
def oldScore : ScoreRow := { user_id := 1, date := "2024-01-01", score := "IH" }

/-- A database with a complete session for user 1 on 2024-01-01 that has
already been scored once. -/
def c7_db : DB :=
  { tests := [sampleTest 1, sampleTest 2, sampleTest 3], scores := [oldScore] }

/-- Evaluation of the scoring handler on the already-scored C7 database,
with a classifier that answers class index 1 for every row. -/
theorem c7_eval :
    get_score_handler (fun _ => 1) c7_db "2024-01-01" 1
      = (Except.ok { user_id := 1, date := "2024-01-01", score := "IL" },
         { tests := c7_db.tests,
           scores := [oldScore, { user_id := 1, date := "2024-01-01", score := "IL" }] }) := by
  have hcol : collect_tests_scores c7_db "2024-01-01" 1
      = Except.ok [featureRow (sampleTest 1), featureRow (sampleTest 2),
          featureRow (sampleTest 3)] := by
    decide
  have hs : session_label [1, 1, 1] = Except.ok "IL" := by
    norm_num [session_label, predicted_class, class_mapping, pyRound]
  simp only [get_score_handler, hcol]
  simp only [List.map_cons, List.map_nil]
  simp only [hs]
  simp [create_score, c7_db, oldScore]

/-- C7 counterexample: a second scoring request for the already-scored
(user 1, 2024-01-01) neither returns the existing Score unchanged nor is
rejected: it succeeds and appends a second Score row for the same key. -/
theorem rescore_counterexample :
    (get_score_handler (fun _ => 1) c7_db "2024-01-01" 1).1.isOk = true ∧
    (get_score_handler (fun _ => 1) c7_db "2024-01-01" 1).2.scores
      = [oldScore, { user_id := 1, date := "2024-01-01", score := "IL" }] ∧
    ((get_score_handler (fun _ => 1) c7_db "2024-01-01" 1).2.scores.filter
        fun s => s.date == "2024-01-01" && s.user_id == 1).length = 2 := by
  rw [c7_eval]
  decide

/-- C7 (amended): the scoring handler performs no existing-Score check:
whenever it succeeds it appends its new Score row to the Score table
unconditionally, whatever Score rows (including one for the same user and
date) already exist. -/
theorem get_score_appends_unconditionally (classifier : MappedRow → ℤ)
    (db : DB) (date : String) (user_id : ℕ) (s : ScoreRow)
    (h : (get_score_handler classifier db date user_id).1 = Except.ok s) :
    (get_score_handler classifier db date user_id).2.scores
      = db.scores ++ [s] := by
  unfold get_score_handler at h ⊢
  cases hc : collect_tests_scores db date user_id with
  | error e => simp [hc] at h
  | ok rows =>
    simp only [hc] at h ⊢
    cases hs : session_label (List.map classifier (List.map map_coherence rows)) with
    | error e => simp only [hs] at h; exact absurd h (by simp)
    | ok label =>
      simp only [hs, Except.ok.injEq] at h ⊢
      simp [create_score, h]

/-- Witness for C7 at the concrete already-scored database. -/
theorem get_score_appends_unconditionally_witness :
    (get_score_handler (fun _ => 1) c7_db "2024-01-01" 1).2.scores
      = [oldScore] ++ [{ user_id := 1, date := "2024-01-01", score := "IL" }] :=
  get_score_appends_unconditionally (fun _ => 1) c7_db "2024-01-01" 1
    { user_id := 1, date := "2024-01-01", score := "IL" }
    (congrArg Prod.fst c7_eval)

/-! ## Claim C3 -/

/-- A persisted test row whose coherence token is outside the fixed
three-level set. -/
def oddRow : TestRow := { sampleTest 1 with coherence := "애매함" }

/-- A complete session for user 1 on 2024-01-01 in which question 1 carries
the unknown coherence token. -/
def c3_db : DB :=
  { tests := [oddRow, sampleTest 2, sampleTest 3], scores := [] }

/-- Evaluation of the scoring handler on the C3 database: the unknown token
does not stop the pipeline. -/
theorem c3_eval :
    (get_score_handler (fun _ => 1) c3_db "2024-01-01" 1).1
      = Except.ok { user_id := 1, date := "2024-01-01", score := "IL" } := by
  have hcol : collect_tests_scores c3_db "2024-01-01" 1
      = Except.ok [featureRow oddRow, featureRow (sampleTest 2),
          featureRow (sampleTest 3)] := by
    decide
  have hs : session_label [1, 1, 1] = Except.ok "IL" := by
    norm_num [session_label, predicted_class, class_mapping, pyRound]
  simp only [get_score_handler, hcol]
  simp only [List.map_cons, List.map_nil]
  simp only [hs]

/-- C3 counterexample: with the per-question result of q_num 1 carrying the
coherence token "애매함", which is outside the mapped set, the scoring
pipeline does not fail at all: it succeeds and persists a Score, so no
UnmappedCategory-style failure exists on this path. -/
theorem unknown_coherence_counterexample :
    oddRow.coherence = "애매함" ∧
    coherence_mapping oddRow.coherence = none ∧
    (get_score_handler (fun _ => 1) c3_db "2024-01-01" 1).1
      = Except.ok { user_id := 1, date := "2024-01-01", score := "IL" } :=
  ⟨rfl, rfl, c3_eval⟩

/-- C3 (amended): a coherence token outside the fixed three-level set is
silently mapped to the missing value (the pandas NaN, modelled `none`):
the mapped column holds no substituted level from the mapping, and no
exception is raised by the mapping step. -/
theorem unknown_coherence_maps_to_missing (r : FeatureRow)
    (h : r.coherence ∉ (["낮음", "중간", "높음"] : List String)) :
    (map_coherence r).coherence = none ∧
    ∀ v : ℕ, (map_coherence r).coherence ≠ some v := by
  simp only [List.mem_cons, List.not_mem_nil, or_false, not_or] at h
  have hm : coherence_mapping r.coherence = none := by
    unfold coherence_mapping
    rw [if_neg h.1, if_neg h.2.1, if_neg h.2.2]
  refine ⟨?_, ?_⟩
  · simp [map_coherence, hm]
  · intro v
    simp [map_coherence, hm]

/-- Witness for C3 at the concrete feature row carrying the unknown token. -/
theorem unknown_coherence_maps_to_missing_witness :
    (map_coherence (featureRow oddRow)).coherence = none ∧
    ∀ v : ℕ, (map_coherence (featureRow oddRow)).coherence ≠ some v :=
  unknown_coherence_maps_to_missing (featureRow oddRow) (by decide)

/-! ## Claim C2 -/

/-- C2: with fewer than 3 persisted TestResult rows for (user, date) the
scoring pipeline always fails — concretely, with the AttributeError raised
by reading a metric off the missing row, the failure mode the spec names
IncompleteSession — and persists nothing: the database is unchanged, so in
particular no Score row is created. -/
theorem incomplete_session_fails_no_persistence (classifier : MappedRow → ℤ)
    (db : DB) (date : String) (user_id : ℕ)
    (h : (db.tests.filter fun t =>
        t.createddate == date && t.user_id == user_id).length < 3) :
    (get_score_handler classifier db date user_id).1
      = Except.error PyError.attributeErrorNoneType ∧
    (get_score_handler classifier db date user_id).2 = db := by
  cases e1 : get_result_by_q_num db date user_id 1 with
  | none =>
    constructor <;>
      simp [get_score_handler, collect_tests_scores, fetch_row, e1]
  | some t1 =>
    cases e2 : get_result_by_q_num db date user_id 2 with
    | none =>
      constructor <;>
        simp [get_score_handler, collect_tests_scores, fetch_row, e1, e2]
    | some t2 =>
      cases e3 : get_result_by_q_num db date user_id 3 with
      | none =>
        constructor <;>
          simp [get_score_handler, collect_tests_scores, fetch_row, e1, e2, e3]
      | some t3 =>
        exfalso
        have m1 : t1 ∈ db.tests := List.mem_of_find?_eq_some e1
        have m2 : t2 ∈ db.tests := List.mem_of_find?_eq_some e2
        have m3 : t3 ∈ db.tests := List.mem_of_find?_eq_some e3
        have p1 : test_key date user_id 1 t1 = true := List.find?_some e1
        have p2 : test_key date user_id 2 t2 = true := List.find?_some e2
        have p3 : test_key date user_id 3 t3 = true := List.find?_some e3
        unfold test_key at p1 p2 p3
        simp only [Bool.and_eq_true, beq_iff_eq] at p1 p2 p3
        have f1 : t1 ∈ db.tests.filter fun t =>
            t.createddate == date && t.user_id == user_id := by
          rw [List.mem_filter]
          exact ⟨m1, by simp [p1.1.1, p1.1.2]⟩
        have f2 : t2 ∈ db.tests.filter fun t =>
            t.createddate == date && t.user_id == user_id := by
          rw [List.mem_filter]
          exact ⟨m2, by simp [p2.1.1, p2.1.2]⟩
        have f3 : t3 ∈ db.tests.filter fun t =>
            t.createddate == date && t.user_id == user_id := by
          rw [List.mem_filter]
          exact ⟨m3, by simp [p3.1.1, p3.1.2]⟩
        have d12 : t1 ≠ t2 := fun hEq => by
          rw [hEq, p2.2] at p1
          exact absurd p1.2 (by decide)
        have d13 : t1 ≠ t3 := fun hEq => by
          rw [hEq, p3.2] at p1
          exact absurd p1.2 (by decide)
        have d23 : t2 ≠ t3 := fun hEq => by
          rw [hEq, p3.2] at p2
          exact absurd p2.2 (by decide)
        exact absurd (three_distinct_le_length _ t1 t2 t3 f1 f2 f3 d12 d13 d23)
          (by omega)

/-- Witness for C2: a database holding only the row for q_num 1 of the
session. -/
theorem incomplete_session_fails_no_persistence_witness :
    ((({ tests := [sampleTest 1], scores := [] } : DB).tests.filter fun t =>
        t.createddate == "2024-01-01" && t.user_id == 1).length < 3) ∧
    ((get_score_handler (fun _ => 1) { tests := [sampleTest 1], scores := [] }
        "2024-01-01" 1).1 = Except.error PyError.attributeErrorNoneType ∧
     (get_score_handler (fun _ => 1) { tests := [sampleTest 1], scores := [] }
        "2024-01-01" 1).2 = { tests := [sampleTest 1], scores := [] }) :=
  ⟨by decide,
   incomplete_session_fails_no_persistence (fun _ => 1)
     { tests := [sampleTest 1], scores := [] } "2024-01-01" 1 (by decide)⟩

/-! ## Claim C5 -/

/-- Helper: when each q_num 1, 2, 3 has exactly one matching row in the Test
table, `collect_tests_scores` returns exactly those three rows, projected to
the fixed column order, q_num ascending. -/
theorem collect_of_filter_singletons (db : DB) (date : String) (user_id : ℕ)
    (t1 t2 t3 : TestRow)
    (h1 : db.tests.filter (test_key date user_id 1) = [t1])
    (h2 : db.tests.filter (test_key date user_id 2) = [t2])
    (h3 : db.tests.filter (test_key date user_id 3) = [t3]) :
    collect_tests_scores db date user_id
      = Except.ok [featureRow t1, featureRow t2, featureRow t3] := by
  have f1 := find?_of_filter_singleton h1
  have f2 := find?_of_filter_singleton h2
  have f3 := find?_of_filter_singleton h3
  simp [collect_tests_scores, fetch_row, get_result_by_q_num, f1, f2, f3]

/-- C5: for a session with exactly one persisted TestResult per q_num 1..3,
the aggregated matrix lists the rows by q_num ascending, each row in the
fixed column order [speaking-rate, mean-length-of-run, pause-ratio, grammar
phase_2 sub-score, pronunciation-metric, coherence], and any reordering of
the Test table (any submission order) yields the same matrix. -/
theorem feature_matrix_fixed_order (db db' : DB) (date : String) (user_id : ℕ)
    (t1 t2 t3 : TestRow)
    (hperm : db'.tests.Perm db.tests)
    (h1 : db.tests.filter (test_key date user_id 1) = [t1])
    (h2 : db.tests.filter (test_key date user_id 2) = [t2])
    (h3 : db.tests.filter (test_key date user_id 3) = [t3]) :
    collect_tests_scores db date user_id
      = Except.ok [{ wpm := t1.wpm, mlr := t1.mlr, pause := t1.pause,
                     grammar := t1.grammar_phase_2_score, pr := t1.mpr,
                     coherence := t1.coherence },
                   { wpm := t2.wpm, mlr := t2.mlr, pause := t2.pause,
                     grammar := t2.grammar_phase_2_score, pr := t2.mpr,
                     coherence := t2.coherence },
                   { wpm := t3.wpm, mlr := t3.mlr, pause := t3.pause,
                     grammar := t3.grammar_phase_2_score, pr := t3.mpr,
                     coherence := t3.coherence }] ∧
    collect_tests_scores db' date user_id
      = collect_tests_scores db date user_id := by
  have h1' : db'.tests.filter (test_key date user_id 1) = [t1] :=
    List.perm_singleton.mp ((hperm.filter _).trans (h1 ▸ List.Perm.refl _))
  have h2' : db'.tests.filter (test_key date user_id 2) = [t2] :=
    List.perm_singleton.mp ((hperm.filter _).trans (h2 ▸ List.Perm.refl _))
  have h3' : db'.tests.filter (test_key date user_id 3) = [t3] :=
    List.perm_singleton.mp ((hperm.filter _).trans (h3 ▸ List.Perm.refl _))
  have hc := collect_of_filter_singletons db date user_id t1 t2 t3 h1 h2 h3
  have hc' := collect_of_filter_singletons db' date user_id t1 t2 t3 h1' h2' h3'
  refine ⟨?_, by rw [hc, hc']⟩
  rw [hc]
  rfl

/-- Witness for C5: two databases holding the same session rows in two
different submission orders produce the same fixed-order matrix. -/
theorem feature_matrix_fixed_order_witness :
    collect_tests_scores
        { tests := [sampleTest 3, sampleTest 1, sampleTest 2], scores := [] }
        "2024-01-01" 1
      = Except.ok [{ wpm := (sampleTest 1).wpm, mlr := (sampleTest 1).mlr,
                     pause := (sampleTest 1).pause,
                     grammar := (sampleTest 1).grammar_phase_2_score,
                     pr := (sampleTest 1).mpr,
                     coherence := (sampleTest 1).coherence },
                   { wpm := (sampleTest 2).wpm, mlr := (sampleTest 2).mlr,
                     pause := (sampleTest 2).pause,
                     grammar := (sampleTest 2).grammar_phase_2_score,
                     pr := (sampleTest 2).mpr,
                     coherence := (sampleTest 2).coherence },
                   { wpm := (sampleTest 3).wpm, mlr := (sampleTest 3).mlr,
                     pause := (sampleTest 3).pause,
                     grammar := (sampleTest 3).grammar_phase_2_score,
                     pr := (sampleTest 3).mpr,
                     coherence := (sampleTest 3).coherence }] ∧
    collect_tests_scores
        { tests := [sampleTest 2, sampleTest 3, sampleTest 1], scores := [] }
        "2024-01-01" 1
      = collect_tests_scores
          { tests := [sampleTest 3, sampleTest 1, sampleTest 2], scores := [] }
          "2024-01-01" 1 :=
  feature_matrix_fixed_order
    { tests := [sampleTest 3, sampleTest 1, sampleTest 2], scores := [] }
    { tests := [sampleTest 2, sampleTest 3, sampleTest 1], scores := [] }
    "2024-01-01" 1 (sampleTest 1) (sampleTest 2) (sampleTest 3)
    (by decide) (by decide) (by decide) (by decide)

/-! ## Claim C4 -/

/-- C4: for class indices in the classifier range 0..4, the session label
equals the fixed table {0 NH, 1 IL, 2 IM, 3 IH, 4 AL} applied to the mean of
the three per-question class indices rounded to the nearest integer with
ties half away from zero (the tie clause is vacuous here: a mean of three
integers is never a half-integer, so the banker-style Python `round` in the
code agrees with the spec rounding on every reachable input); in particular
indices [1, 1, 2] yield IL and [3, 4, 4] yield AL. -/
theorem session_label_rounds_mean (a b c : ℤ)
    (ha : 0 ≤ a ∧ a ≤ 4) (hb : 0 ≤ b ∧ b ≤ 4) (hc : 0 ≤ c ∧ c ≤ 4) :
    session_label [a, b, c]
      = Except.ok (spec_label (spec_round_half_away (((a + b + c : ℤ) : ℚ) / 3))) ∧
    session_label [1, 1, 2] = Except.ok "IL" ∧
    session_label [3, 4, 4] = Except.ok "AL" := by
  refine ⟨?_,
    by norm_num [session_label, predicted_class, class_mapping, pyRound],
    by norm_num [session_label, predicted_class, class_mapping, pyRound]⟩
  have key : ∀ s : ℤ, 0 ≤ s → s ≤ 12 →
      predicted_class (pyRound ((s : ℚ) / 3))
        = Except.ok (spec_label (spec_round_half_away ((s : ℚ) / 3))) := by
    intro s hs1 hs2
    interval_cases s <;>
      norm_num [predicted_class, pyRound, spec_round_half_away, spec_label,
        class_mapping]
  have hmean : (([a, b, c].map fun z => (z : ℚ)).sum
      / (([a, b, c] : List ℤ).length : ℚ)) = ((a + b + c : ℤ) : ℚ) / 3 := by
    push_cast
    simp [List.sum_cons]
    ring
  rw [session_label, hmean]
  exact key _ (by omega) (by omega)

/-- Witness for C4 at the class indices [1, 1, 2] of the spec example. -/
theorem session_label_rounds_mean_witness :
    session_label [1, 1, 2]
      = Except.ok (spec_label (spec_round_half_away (((1 + 1 + 2 : ℤ) : ℚ) / 3))) ∧
    session_label [1, 1, 2] = Except.ok "IL" ∧
    session_label [3, 4, 4] = Except.ok "AL" :=
  session_label_rounds_mean 1 1 2 ⟨by decide, by decide⟩ ⟨by decide, by decide⟩
    ⟨by decide, by decide⟩

/-! ## Claim C10 -/

/-- C10: the class-label lookup in the scoring handler is a partial map:
for a rounded mean in {0, 1, 2, 3, 4} the comprehension produces exactly
the one matching label of {NH, IL, IM, IH, AL}, while for any rounded mean
outside that range it produces the empty list and indexing it raises
IndexError; and whenever the handler fails, the database — in particular
the Score table — is returned unchanged. -/
theorem class_lookup_partial_map (m : ℤ) (classifier : MappedRow → ℤ)
    (db : DB) (date : String) (user_id : ℕ) :
    (0 ≤ m → m ≤ 4 →
      (class_mapping.filter fun kv => kv.2 == m).map Prod.fst = [spec_label m] ∧
      predicted_class m = Except.ok (spec_label m)) ∧
    (m < 0 ∨ 4 < m →
      (class_mapping.filter fun kv => kv.2 == m).map Prod.fst = [] ∧
      predicted_class m = Except.error PyError.indexErrorClassLookup) ∧
    ((get_score_handler classifier db date user_id).1.isOk = false →
      (get_score_handler classifier db date user_id).2 = db) := by
  refine ⟨?_, ?_, ?_⟩
  · intro hm1 hm2
    interval_cases m <;> exact ⟨by decide, by decide⟩
  · intro hm
    have e0 : ((0 : ℤ) == m) = false := by simp; omega
    have e1 : ((1 : ℤ) == m) = false := by simp; omega
    have e2 : ((2 : ℤ) == m) = false := by simp; omega
    have e3 : ((3 : ℤ) == m) = false := by simp; omega
    have e4 : ((4 : ℤ) == m) = false := by simp; omega
    constructor <;>
      simp [class_mapping, predicted_class, List.filter, e0, e1, e2, e3, e4]
  · intro hfail
    unfold get_score_handler at hfail ⊢
    cases hc : collect_tests_scores db date user_id with
    | error e => simp [hc]
    | ok rows =>
      simp only [hc] at hfail ⊢
      cases hs : session_label (List.map classifier (List.map map_coherence rows)) with
      | error e => simp only [hs]
      | ok label =>
        simp only [hs] at hfail
        exact absurd hfail (by simp [Except.isOk, Except.toBool])

/-- Witness for C10: the lookup at the in-range rounded mean 2 and at the
out-of-range rounded mean 7. -/
theorem class_lookup_partial_map_witness :
    ((class_mapping.filter fun kv => kv.2 == (2 : ℤ)).map Prod.fst
        = [spec_label 2] ∧
      predicted_class 2 = Except.ok (spec_label 2)) ∧
    ((class_mapping.filter fun kv => kv.2 == (7 : ℤ)).map Prod.fst = [] ∧
      predicted_class 7 = Except.error PyError.indexErrorClassLookup) :=
  ⟨(class_lookup_partial_map 2 (fun _ => 0) { tests := [], scores := [] }
      "2024-01-01" 1).1 (by decide) (by decide),
   (class_lookup_partial_map 7 (fun _ => 0) { tests := [], scores := [] }
      "2024-01-01" 1).2.1 (by decide)⟩

end MOPIc
